import Mathlib

/-!
Verification of the host-networking layer of cpp-ethereum
(`src/libp2p/Network.h`): preferences, address resolution precedence,
bind/listen with port fallback, NAT traversal, connection lifecycle and
the network engine's start/stop state machine.

The header under `src/` is mostly declarations; where an implementation
is missing from `src/`, the corresponding Lean definition is modelled
from the specification and says so in its doc comment.
-/

set_option maxHeartbeats 1000000

/-- An IP address. `Address.unspec` is the unspecified sentinel (the value a
default-constructed `bi::address` carries); `Address.ip a p` is a concrete
address with numeric value `a` and `p = true` when it is a private-range
address. -/
inductive Address where
  | unspec : Address
  | ip : Nat → Bool → Address
deriving DecidableEq, Repr

/-- Whether an address is a private-range address. The unspecified sentinel is
not private. -/
def Address.isPrivate : Address → Bool
  | Address.unspec => false
  | Address.ip _ p => p

/-- An endpoint: IP address plus port (`bi::tcp::endpoint`). -/
structure Endpoint where
  addr : Address
  port : Nat
deriving DecidableEq, Repr

/-- The unspecified endpoint sentinel: default-constructed `bi::tcp::endpoint`
(unspecified address, port 0), used to signal resolution failure. -/
def Endpoint.unspecified : Endpoint := ⟨Address.unspec, 0⟩

/-- `NetworkPreferences` from `src/libp2p/Network.h` lines 35-43: the
constructor defaults are `listenPort = 30303`, `publicIP = ""` (empty string
means unset/autodetect), `upnp = true`, `localNetworking = false`. -/
structure NetworkPreferences where
  listenPort : Nat := 30303
  publicIP : String := ""
  upnp : Bool := true
  localNetworking : Bool := false
deriving DecidableEq, Repr

/-- A default-constructed `NetworkPreferences` (all constructor arguments
defaulted). -/
def defaultNetworkPreferences : NetworkPreferences := {}

/- ### Connection (src/libp2p/Network.h lines 77-96) -/

/-- Lifecycle state of a connection's socket, per the spec's state chain
Idle → Accepting / Connecting → Established → Closed. An established socket
carries its remote endpoint. -/
inductive SocketState where
  | idle : SocketState
  | accepting : SocketState
  | connecting : SocketState
  | established : Endpoint → SocketState
  | closed : SocketState
deriving DecidableEq, Repr

/-- Error conditions raised by socket queries; `notConnected` is the
state-mismatch condition (`boost::asio::error::not_connected`) raised by
`remote_endpoint()` on a socket that has no live peer. -/
inductive NetError where
  | notConnected : NetError
deriving DecidableEq, Repr

/-- `remote_endpoint()` of `boost::asio::ip::tcp::socket`: returns the remote
endpoint when the socket is connected (Established), otherwise fails with the
not-connected error condition. -/
def SocketState.remoteEndpoint : SocketState → Except NetError Endpoint
  | SocketState.established r => Except.ok r
  | _ => Except.error NetError.notConnected

/-- A `Connection` wraps exactly one socket (`m_socket`). -/
structure Connection where
  socket : SocketState
deriving DecidableEq, Repr

/-- `Connection::remote()` from `src/libp2p/Network.h` line 91:
`return m_socket.remote_endpoint();` — a direct delegation to the socket. -/
def Connection.remote (c : Connection) : Except NetError Endpoint :=
  c.socket.remoteEndpoint

/-- Modelled from the spec: `Connection::drop()` (declared at
`src/libp2p/Network.h` line 94, implementation not under `src/`) is an
idempotent close of the underlying socket — the socket is released (Closed)
and, being a total pure function, the operation never raises. -/
def Connection.drop (_c : Connection) : Connection :=
  ⟨SocketState.closed⟩

/-- `Connection::~Connection()` from `src/libp2p/Network.h` line 89:
`~Connection() { drop(); }` — destruction always invokes `drop()`. -/
def Connection.destruct (c : Connection) : Connection :=
  c.drop

/- ### Network engine hooks (src/libp2p/Network.h lines 115-126) -/

/-- The default `onShutdown` hook exactly as declared at
`src/libp2p/Network.h` line 126: `virtual void onShutdown() {}` — the return
type is `void` (here `Unit`) and the default body is empty, so the hook as
declared returns no boolean at all. -/
def Network.onShutdownDefault : Unit := ()

/- ### NetworkStatic (src/libp2p/Network.h lines 45-52) -/

/-- Modelled from the spec: the OS socket layer seen by
`NetworkStatic::listen4` (implementation not under `src/`). `bindTo p` says
whether a bind+listen on the concrete port `p` succeeds; `ephemeralPort` is
the port an OS-assigned (ephemeral, "net-allocated") bind yields, `none` when
ephemeral ports are exhausted. -/
structure OSNet where
  bindTo : Nat → Bool
  ephemeralPort : Option Nat

/-- Modelled from the spec: `NetworkStatic::listen4` (declared at
`src/libp2p/Network.h` line 48, implementation not under `src/`): try to bind
and listen on `listenPort`; on failure retry exactly once with an OS-assigned
ephemeral port; return the actually-bound port, or `none` (fatal) when both
attempts fail. -/
def NetworkStatic.listen4 (os : OSNet) (listenPort : Nat) : Option Nat :=
  if os.bindTo listenPort then
    some listenPort
  else
    match os.ephemeralPort with
    | some p => some p
    | none => none

/-- A UPnP Internet Gateway Device as the NAT-traversal code observes it:
the external (public) address and port the gateway would map, the private
local interface address UPnP selected, and whether the gateway accepts the
port-mapping request. -/
structure UPnPGateway where
  externalAddr : Address
  externalPort : Nat
  localIf : Address
  acceptsMapping : Bool
deriving DecidableEq, Repr

/-- The UPnP environment: `none` when no gateway responds within the
bounded-time discovery, otherwise the discovered gateway. -/
structure UPnPEnv where
  gateway : Option UPnPGateway
deriving DecidableEq, Repr

/-- UPnP traversal fails exactly when no gateway responds within the
discovery timeout or the gateway rejects the mapping request. -/
def UPnPEnv.fails (env : UPnPEnv) : Bool :=
  match env.gateway with
  | none => true
  | some g => !g.acceptsMapping

/-- Well-formedness of a UPnP environment: a responding gateway advertises a
real external endpoint, not the unspecified sentinel. -/
def UPnPEnv.wf (env : UPnPEnv) : Bool :=
  match env.gateway with
  | none => true
  | some g =>
      decide ((⟨g.externalAddr, g.externalPort⟩ : Endpoint) ≠ Endpoint.unspecified)

/-- Modelled from the spec: `NetworkStatic::traverseNAT` (declared at
`src/libp2p/Network.h` line 51, implementation not under `src/`): best-effort
UPnP discovery and port mapping. Returns the pair
(public endpoint, `o_upnpifaddr` output). On success the endpoint holds the
gateway's external address and port and `o_upnpifaddr` becomes the private
interface address UPnP observed; on failure the endpoint is the unspecified
sentinel and `o_upnpifaddr` keeps its input value. Total (never fatal). -/
def NetworkStatic.traverseNAT (env : UPnPEnv) (_ifAddresses : List Address)
    (_listenPort : Nat) (ifaddrIn : Address) : Endpoint × Address :=
  match env.gateway with
  | none => (Endpoint.unspecified, ifaddrIn)
  | some g =>
      if g.acceptsMapping then
        (⟨g.externalAddr, g.externalPort⟩, g.localIf)
      else
        (Endpoint.unspecified, ifaddrIn)

/- ### HostNetwork (src/libp2p/Network.h lines 59-75) -/

/-- `HostNetwork` state: interface addresses captured at construction and the
set (modelled as a duplicate-free insertion list) of public addresses peers
can know us by. -/
structure HostNetwork where
  ifAddresses : List Address
  publicAddresses : List Address
deriving DecidableEq, Repr

/-- The resolution environment `HostNetwork::listen4` consults beyond its
arguments: the string-to-address parse (boost `address::from_string`, applied
to a user-provided `publicIP`) and the UPnP environment. -/
structure ResolveEnv where
  parse : String → Address
  upnp : UPnPEnv

/-- The UPnP leg of endpoint resolution: attempted only when
`prefs.upnp = true`, otherwise it contributes the unspecified sentinel. -/
def upnpLeg (env : ResolveEnv) (prefs : NetworkPreferences)
    (host : HostNetwork) (port : Nat) : Endpoint :=
  if prefs.upnp then
    (NetworkStatic.traverseNAT env.upnp host.ifAddresses port Address.unspec).1
  else
    Endpoint.unspecified

/-- Modelled from the spec: the endpoint-precedence policy of
`HostNetwork::listen4` (declared at `src/libp2p/Network.h` lines 69-71,
implementation not under `src/`), per its documented order
User Provided > Public > UPnP [> Private] > Unspecified:
1. a user-provided public IP (`prefs.publicIP` non-empty) with the bound port;
2. an address already in `publicAddresses` with the bound port;
3. the UPnP-discovered external endpoint, attempted only if `prefs.upnp`;
4. a private interface address, only if `prefs.localNetworking`;
5. the unspecified sentinel. -/
def chooseEndpoint (env : ResolveEnv) (prefs : NetworkPreferences)
    (host : HostNetwork) (port : Nat) : Endpoint :=
  if prefs.publicIP ≠ "" then
    ⟨env.parse prefs.publicIP, port⟩
  else
    match host.publicAddresses with
    | a :: _ => ⟨a, port⟩
    | [] =>
        let u := upnpLeg env prefs host port
        if u ≠ Endpoint.unspecified then
          u
        else if prefs.localNetworking then
          match host.ifAddresses.filter Address.isPrivate with
          | a :: _ => ⟨a, port⟩
          | [] => Endpoint.unspecified
        else
          Endpoint.unspecified

/-- Modelled from the spec: `HostNetwork::listen4` (declared at
`src/libp2p/Network.h` lines 69-71, implementation not under `src/`): bind
(with the once-only ephemeral retry of `NetworkStatic::listen4`), resolve the
public endpoint by precedence at the actually-bound port, and on successful
resolution insert the chosen (valid) public address into `publicAddresses`.
Returns `none` when the bind fails fatally. -/
def HostNetwork.listen4 (env : ResolveEnv) (prefs : NetworkPreferences)
    (os : OSNet) (host : HostNetwork) : Option (Endpoint × HostNetwork) :=
  match NetworkStatic.listen4 os prefs.listenPort with
  | none => none
  | some port =>
      let e := chooseEndpoint env prefs host port
      if e.addr ≠ Address.unspec then
        some (e, ⟨host.ifAddresses, host.publicAddresses.insert e.addr⟩)
      else
        some (e, host)

/- ### Network engine lifecycle (src/libp2p/Network.h lines 102-145) -/

/-- Observable actions the engine performs during a lifecycle transition. -/
inductive EngineEvent where
  | bindSocket : EngineEvent
  | startupHook : EngineEvent
  | shutdownHook : EngineEvent
  | closeSocket : EngineEvent
  | cancelTimer : EngineEvent
deriving DecidableEq, Repr

/-- The `Network` engine's lifecycle-relevant state: its immutable
preferences (`m_netPrefs`) and the run flag (`m_run`): `running = true`
between a completed `start()` and the matching `stop()`. -/
structure Engine where
  prefs : NetworkPreferences
  running : Bool
deriving DecidableEq, Repr

/-- Modelled from the spec: `Network::start()` / `startedWorking()`
(declared at `src/libp2p/Network.h` lines 110 and 132, implementation not
under `src/`): under the start/stop mutex, if already running it is a no-op;
otherwise it binds the listening socket, invokes the `onStartup` hook, and
transitions to Running. The returned list records the startup work done. -/
def Engine.start (e : Engine) : Engine × List EngineEvent :=
  if e.running then
    (e, [])
  else
    (⟨e.prefs, true⟩, [EngineEvent.bindSocket, EngineEvent.startupHook])

/-- Modelled from the spec: `Network::stop()` / `doneWorking()` (declared at
`src/libp2p/Network.h` lines 113 and 133, implementation not under `src/`):
on an already-stopped engine it is a no-op; otherwise it polls the
`onShutdown` hook (the default is immediately ready), closes the listening
socket, cancels the timer and transitions to Stopped. -/
def Engine.stop (e : Engine) : Engine × List EngineEvent :=
  if e.running then
    (⟨e.prefs, false⟩,
      [EngineEvent.shutdownHook, EngineEvent.closeSocket,
        EngineEvent.cancelTimer])
  else
    (e, [])

/-- A freshly constructed, not-yet-started engine holding a copy of the
caller's preferences. -/
def initialEngine (p : NetworkPreferences) : Engine :=
  ⟨p, false⟩

/-- Modelled from the spec: the `Network` constructor (declared at
`src/libp2p/Network.h` line 106, implementation not under `src/`):
`Network(NetworkPreferences const& _n = NetworkPreferences(), bool _start = false)`
stores the preferences; when `_start` is true, construction itself starts the
network, otherwise the engine is left Stopped having done no work. -/
def Network.construct (p : NetworkPreferences) (doStart : Bool) :
    Engine × List EngineEvent :=
  if doStart then (initialEngine p).start else (initialEngine p, [])

/- ### Concrete instances used by the witnesses -/

/-- An OS layer on which every bind succeeds. -/
def osAllBind : OSNet := ⟨fun _ => true, some 40000⟩

/-- An OS layer with no reachable gateway and a parse that yields 7.0.0.0. -/
def resolveEnvW : ResolveEnv := ⟨fun _ => Address.ip 7 false, ⟨none⟩⟩

/-- Preferences with a user-provided public IP. -/
def prefsW : NetworkPreferences := ⟨30303, "7.0.0.0", true, false⟩

/-- A host with no interface addresses and no known public addresses. -/
def hostW : HostNetwork := ⟨[], []⟩

/-- A UPnP environment whose gateway accepts the mapping request. -/
def upnpEnvW : UPnPEnv :=
  ⟨some ⟨Address.ip 203 false, 30303, Address.ip 10 true, true⟩⟩

/- ### Theorems -/

/-- C1: the spec says `onShutdown` returns a boolean (false = poll again,
true = done) and that the default implementation returns true. The code
declares `virtual void onShutdown() {}`: its return type is void, so the
default implementation returns the unit value and the return type cannot
distinguish a ready signal from a not-ready one (all its values are equal),
contradicting the code's own doc comment and the spec. -/
theorem onShutdown_returns_void :
    Network.onShutdownDefault = () ∧ ∀ u v : Unit, u = v := by
  exact ⟨rfl, fun u v => rfl⟩

/-- C7: `drop()` is an idempotent close — after any number of calls, from any
state, the socket is released (Closed), repeated calls change nothing, and
destruction (`~Connection`) invokes exactly `drop()`. Being a total pure
function, `drop` never raises. -/
theorem drop_idempotent_close :
    ∀ c : Connection,
      (c.drop).socket = SocketState.closed ∧
      (c.drop).drop = c.drop ∧
      c.destruct = c.drop := by
  intro c
  exact ⟨rfl, rfl, rfl⟩

/-- C8: `Connection::remote()` returns the remote endpoint exactly in the
Established state, and fails with the not-connected (state-mismatch) error
condition in every other state (Idle, Accepting, Connecting, Closed). -/
theorem remote_requires_established :
    (∀ r : Endpoint,
      (Connection.mk (SocketState.established r)).remote = Except.ok r) ∧
    (Connection.mk SocketState.idle).remote =
      Except.error NetError.notConnected ∧
    (Connection.mk SocketState.accepting).remote =
      Except.error NetError.notConnected ∧
    (Connection.mk SocketState.connecting).remote =
      Except.error NetError.notConnected ∧
    (Connection.mk SocketState.closed).remote =
      Except.error NetError.notConnected := by
  exact ⟨fun r => rfl, rfl, rfl, rfl, rfl⟩

/-- C9: a default-constructed `NetworkPreferences` has `listenPort = 30303`,
`publicIP = ""`, `upnp = true`, `localNetworking = false`; and once passed to
the engine the preferences are immutable — no lifecycle operation changes
them. -/
theorem networkPreferences_defaults :
    defaultNetworkPreferences.listenPort = 30303 ∧
    defaultNetworkPreferences.publicIP = "" ∧
    defaultNetworkPreferences.upnp = true ∧
    defaultNetworkPreferences.localNetworking = false ∧
    ∀ e : Engine, ((e.start).1).prefs = e.prefs ∧
      ((e.stop).1).prefs = e.prefs := by
  refine ⟨rfl, rfl, rfl, rfl, ?_⟩
  intro e
  cases h : e.running <;> simp [Engine.start, Engine.stop, h]

/-- C5: the lifecycle is idempotent — starting a fresh engine performs the
bind and the startup hook exactly once and reaches Running; a second
`start()` is a no-op (same state, no events); `stop()` on an already-Stopped
engine is a no-op. -/
theorem lifecycle_idempotent (p : NetworkPreferences) :
    ((initialEngine p).start).1.running = true ∧
    ((initialEngine p).start).2 =
      [EngineEvent.bindSocket, EngineEvent.startupHook] ∧
    (((initialEngine p).start).1).start = (((initialEngine p).start).1, []) ∧
    (initialEngine p).stop = (initialEngine p, []) := by
  simp [initialEngine, Engine.start, Engine.stop]

/-- C10: constructing a `Network` with `_start = false` (the default) leaves
the engine Stopped with no bind or startup work performed, and constructing
with `_start = true` is exactly `start()` applied to the freshly constructed
engine. -/
theorem construct_start_flag (p : NetworkPreferences) :
    Network.construct p false = (initialEngine p, []) ∧
    (initialEngine p).running = false ∧
    Network.construct p true = (initialEngine p).start := by
  simp [Network.construct, initialEngine]

/-- C3: `NetworkStatic::listen4` binds to the preferred port when it can and
returns it; on a failed preferred bind it retries exactly once with the
OS-assigned ephemeral port and returns whatever that single retry yields; it
fails (fatally to startup) exactly when both attempts fail. -/
theorem listen4_port_fallback (os : OSNet) (lp : Nat) :
    (os.bindTo lp = true → NetworkStatic.listen4 os lp = some lp) ∧
    (os.bindTo lp = false → NetworkStatic.listen4 os lp = os.ephemeralPort) ∧
    (NetworkStatic.listen4 os lp = none ↔
      os.bindTo lp = false ∧ os.ephemeralPort = none) := by
  cases h : os.bindTo lp <;> cases he : os.ephemeralPort <;>
    simp [NetworkStatic.listen4, h, he]

/-- Witness for C3 at a concrete OS layer: the preferred port is bound. -/
theorem listen4_port_fallback_witness :
    NetworkStatic.listen4 osAllBind 30303 = some 30303 :=
  (listen4_port_fallback osAllBind 30303).1 rfl

/-- C6: `traverseNAT` returns the unspecified sentinel as the public endpoint
exactly when UPnP fails (no gateway responds within discovery, or the gateway
rejects the mapping); on success it returns the gateway's external endpoint
and sets the output interface address to the private local interface UPnP
observed. As a total function it is never fatal to the caller. -/
theorem traverseNAT_best_effort (env : UPnPEnv) (ifs : List Address)
    (lp : Nat) (a0 : Address) (hwf : env.wf = true) :
    ((NetworkStatic.traverseNAT env ifs lp a0).1 = Endpoint.unspecified ↔
      env.fails = true) ∧
    (∀ g, env.gateway = some g → g.acceptsMapping = true →
      NetworkStatic.traverseNAT env ifs lp a0 =
        (⟨g.externalAddr, g.externalPort⟩, g.localIf)) := by
  cases hg : env.gateway with
  | none =>
      simp [NetworkStatic.traverseNAT, UPnPEnv.fails, hg]
  | some g =>
      cases ha : g.acceptsMapping with
      | false =>
          simp [NetworkStatic.traverseNAT, UPnPEnv.fails, hg, ha]
      | true =>
          have hne : (⟨g.externalAddr, g.externalPort⟩ : Endpoint) ≠
              Endpoint.unspecified := by
            have := hwf
            unfold UPnPEnv.wf at this
            rw [hg] at this
            exact of_decide_eq_true this
          constructor
          · simp [NetworkStatic.traverseNAT, UPnPEnv.fails, hg, ha, hne]
          · intro g' hg' ha'
            injection hg' with hgg
            subst hgg
            simp [NetworkStatic.traverseNAT, hg, ha]

/-- Witness for C6 at a concrete accepting gateway. -/
theorem traverseNAT_best_effort_witness :
    NetworkStatic.traverseNAT upnpEnvW [] 30303 Address.unspec =
      (⟨Address.ip 203 false, 30303⟩, Address.ip 10 true) :=
  (traverseNAT_best_effort upnpEnvW [] 30303 Address.unspec (by decide)).2
    ⟨Address.ip 203 false, 30303, Address.ip 10 true, true⟩ rfl rfl

/-- A host with no interface addresses and one known public address. -/
def hostW2 : HostNetwork := ⟨[], [Address.ip 5 false]⟩

/-- C2: public-endpoint resolution follows the fixed precedence order:
(1) a user-provided public IP wins outright; (2) otherwise an address already
in `publicAddresses`; (3) otherwise the UPnP leg when it produced a real
endpoint — and the UPnP leg is attempted only if `prefs.upnp` is true,
yielding the sentinel otherwise; (4) otherwise a private interface address,
only if `prefs.localNetworking`; (5) otherwise the unspecified sentinel.
The endpoint `HostNetwork::listen4` returns is exactly this resolution at the
actually-bound port. -/
theorem resolve_precedence (env : ResolveEnv) (prefs : NetworkPreferences)
    (host : HostNetwork) (port : Nat) :
    (prefs.publicIP ≠ "" →
      chooseEndpoint env prefs host port =
        ⟨env.parse prefs.publicIP, port⟩) ∧
    (prefs.publicIP = "" → ∀ a rest, host.publicAddresses = a :: rest →
      chooseEndpoint env prefs host port = ⟨a, port⟩) ∧
    (prefs.publicIP = "" → host.publicAddresses = [] →
      upnpLeg env prefs host port ≠ Endpoint.unspecified →
      chooseEndpoint env prefs host port = upnpLeg env prefs host port) ∧
    (prefs.upnp = false →
      upnpLeg env prefs host port = Endpoint.unspecified) ∧
    (prefs.publicIP = "" → host.publicAddresses = [] →
      upnpLeg env prefs host port = Endpoint.unspecified →
      prefs.localNetworking = true →
      ∀ a rest, host.ifAddresses.filter Address.isPrivate = a :: rest →
      chooseEndpoint env prefs host port = ⟨a, port⟩) ∧
    (prefs.publicIP = "" → host.publicAddresses = [] →
      upnpLeg env prefs host port = Endpoint.unspecified →
      (prefs.localNetworking = false ∨
        host.ifAddresses.filter Address.isPrivate = []) →
      chooseEndpoint env prefs host port = Endpoint.unspecified) ∧
    (∀ os : OSNet, ∀ bp,
      NetworkStatic.listen4 os prefs.listenPort = some bp →
      Option.map Prod.fst (HostNetwork.listen4 env prefs os host) =
        some (chooseEndpoint env prefs host bp)) := by
  refine ⟨?_, ?_, ?_, ?_, ?_, ?_, ?_⟩
  · intro h
    simp [chooseEndpoint, h]
  · intro h a rest hpa
    simp [chooseEndpoint, h, hpa]
  · intro h hpa hu
    simp [chooseEndpoint, h, hpa, hu]
  · intro h
    simp [upnpLeg, h]
  · intro h hpa hu hl a rest hfil
    simp [chooseEndpoint, h, hpa, hu, hl, hfil]
  · intro h hpa hu hdisj
    rcases hdisj with hl | hfil
    · simp [chooseEndpoint, h, hpa, hu, hl]
    · cases hl : prefs.localNetworking <;>
        simp [chooseEndpoint, h, hpa, hu, hl, hfil]
  · intro os bp hbp
    simp only [HostNetwork.listen4, hbp]
    split <;> simp

/-- Witness for C2 at a concrete instance of precedence source 2: no user IP,
a known public address wins. -/
theorem resolve_precedence_witness :
    chooseEndpoint resolveEnvW defaultNetworkPreferences hostW2 30303 =
      ⟨Address.ip 5 false, 30303⟩ :=
  (resolve_precedence resolveEnvW defaultNetworkPreferences hostW2 30303).2.1
    rfl (Address.ip 5 false) [] rfl

/-- C4: `publicAddresses` never contains the unspecified sentinel — the
invariant is preserved by `HostNetwork::listen4`; on a successful resolution
exactly the chosen valid public address is inserted, and when resolution
fails (sentinel endpoint) the host state is untouched. -/
theorem publicAddresses_no_sentinel (env : ResolveEnv)
    (prefs : NetworkPreferences) (os : OSNet) (host : HostNetwork)
    (hinv : Address.unspec ∉ host.publicAddresses) :
    ∀ e h', HostNetwork.listen4 env prefs os host = some (e, h') →
      Address.unspec ∉ h'.publicAddresses ∧
      (e.addr ≠ Address.unspec →
        h'.publicAddresses = host.publicAddresses.insert e.addr) ∧
      (e.addr = Address.unspec → h' = host) := by
  intro e h' hres
  unfold HostNetwork.listen4 at hres
  cases hbp : NetworkStatic.listen4 os prefs.listenPort with
  | none =>
      rw [hbp] at hres
      exact absurd hres (by simp)
  | some port =>
      rw [hbp] at hres
      dsimp only at hres
      by_cases hc : (chooseEndpoint env prefs host port).addr ≠ Address.unspec
      · rw [if_pos hc] at hres
        simp only [Option.some.injEq, Prod.mk.injEq] at hres
        obtain ⟨he, hh⟩ := hres
        subst he
        subst hh
        refine ⟨?_, ?_, ?_⟩
        · intro hmem
          rcases List.mem_insert_iff.1 hmem with hq | hq
          · exact hc hq.symm
          · exact hinv hq
        · intro _
          rfl
        · intro h0
          exact absurd h0 hc
      · rw [if_neg hc] at hres
        simp only [Option.some.injEq, Prod.mk.injEq] at hres
        obtain ⟨he, hh⟩ := hres
        subst he
        subst hh
        push_neg at hc
        refine ⟨hinv, ?_, ?_⟩
        · intro hne
          exact absurd hc hne
        · intro _
          rfl

/-- Witness for C4: from an empty `publicAddresses`, resolving with a
user-provided IP 7.0.0.0 inserts exactly that address and the sentinel stays
absent. -/
theorem publicAddresses_no_sentinel_witness :
    Address.unspec ∉
      (HostNetwork.mk ([] : List Address) [Address.ip 7 false]).publicAddresses :=
  ((publicAddresses_no_sentinel resolveEnvW prefsW osAllBind hostW
      (by decide)) ⟨Address.ip 7 false, 30303⟩
      (HostNetwork.mk [] [Address.ip 7 false]) (by decide)).1
